import Mathlib

/-!
Formal model of the client-side telemetry orchestrator of the
surveillance-ai repository (React frontend).

Source mapping (shallow embedding, translated from the JavaScript source):
* `createHourlyTrend`, `trendBucket`, `alertInHour` — the trend synthesizer
  `createHourlyTrend` of `src/unnamed/part_000` lines 12–37.
* `extractPersonCount`, `updateDetection` — the `DetectionProvider.updateDetection`
  variant of `src/unnamed/part_000` lines 432–475 (count-fallback variant).
* `updateDetectionNA` — the `DetectionProvider.updateDetection` variant of
  `src/unnamed/part_000` lines 521–565 (new-arrivals-only variant, the one the
  spec adopts in its design notes).
* `detStep`, `detRun` — the interleaving of `updateDetection` calls with the
  snapshot-expiry timer callback `prev?.id === newDetection.id ? null : prev`.
* `bootstrap` — the bootstrap effect of `src/frontend/src/pages/Dashboard.jsx`
  lines 21–149.
* `applyLiveAlert`, `dashFrameStep`, `deliverFrame` — the live-alert handler of
  `Dashboard.jsx` lines 153–181 composed with `subscribeAlerts` of
  `src/unnamed/part_004` lines 44–65.
* `retryConnection`, `onManifestParsed`, `onFatalError` — the retry budget of
  `src/frontend/src/components/VideoPlayer.jsx`.

Modelling conventions:
* One model time unit is one minute; the 1-hour bucket width is 60, the
  10-second snapshot dwell of `setTimeout(..., 10000)` is 10 time units.
* A JavaScript number field that may be `undefined` is an `Option Nat`;
  `undefined` is `none`.  `x || y` on numbers is `jsOrNat` (any present,
  nonzero value is truthy; `0` and `undefined` are falsy).  `x ?? y` is
  `Option.getD`-style null coalescing.
* An unparseable alert timestamp is `timestamp = none`: `new Date(bad)` is an
  Invalid Date whose numeric value is NaN, and every `NaN >= a` / `NaN < b`
  comparison is `false`, which `alertInHour` reproduces.
* Floating-point presentation fields that no modelled operation reads
  (`lat`, `lng`, `confidence`) are omitted from the records.
-/

/-- JavaScript `x || y` for an optional number `x`: a present, nonzero value
wins; `undefined` and `0` are falsy and fall through to `y`. -/
def jsOrNat (x : Option Nat) (y : Nat) : Nat :=
  match x with
  | some n => if n = 0 then y else n
  | none => y

/-- JavaScript `x || y` for an optional string `x`: a present, nonempty string
wins; `undefined` and `""` are falsy and fall through to `y`. -/
def jsOrStr (x : Option String) (y : String) : String :=
  match x with
  | some s => if s = "" then y else s
  | none => y

/-- Bounding box, as produced by the detection pipeline. -/
structure BBox where
  x : Nat
  y : Nat
  w : Nat
  h : Nat
deriving DecidableEq, Repr

/-- The `detections` sub-object of an alert event.  `objects` lists detected
object class names (for example `"person"`, `"weapon"`). -/
structure Detections where
  objects : Option (List String)
  boxes : Option (List BBox)
  zone : Option String
deriving DecidableEq, Repr

/-- An alert event as delivered by the alert history query or the push
channel.  Optional fields model JavaScript fields that may be absent.
`timestamp = none` models an unparseable timestamp (NaN date). -/
structure AlertEvent where
  id : Nat
  timestamp : Option Nat
  title : Option String
  reason : Option String
  severity : Option String
  location : Option String
  details : Option String
  person_count : Option Nat
  new_person_count : Option Nat
  detections : Option Detections
deriving DecidableEq, Repr

/-- An alert event carrying only a timestamp; the remaining fields are absent.
Used to build concrete inputs for the trend synthesizer. -/
def tsEvent (t : Option Nat) : AlertEvent :=
  { id := 0, timestamp := t, title := none, reason := none, severity := none,
    location := none, details := none, person_count := none,
    new_person_count := none, detections := none }

/-- One point of the trend chart: `createHourlyTrend` stores the bucket count
under both the `alerts` and the `count` field names. -/
structure TrendPoint where
  time : Nat
  alerts : Nat
  count : Nat
deriving DecidableEq, Repr

/-- `hourStart.setHours(now.getHours() - i, 0, 0, 0)` truncates `now` to the
start of its calendar hour (before subtracting whole hours). -/
def hourFloor (t : Nat) : Nat := 60 * (t / 60)

/-- The filter predicate of `createHourlyTrend`:
`alertTime >= hourStart && alertTime < hourEnd`.  An unparseable timestamp is
NaN and both comparisons are `false`. -/
def alertInHour (hourStart hourEnd : Nat) (a : AlertEvent) : Bool :=
  match a.timestamp with
  | some t => decide (hourStart ≤ t) && decide (t < hourEnd)
  | none => false

/-- `alerts.filter(alert => alertTime >= hourStart && alertTime < hourEnd).length`. -/
def bucketCount (alerts : List AlertEvent) (hourStart hourEnd : Nat) : Nat :=
  (alerts.filter (alertInHour hourStart hourEnd)).length

/-- One iteration of the loop body of `createHourlyTrend`: the bucket for the
calendar hour starting `i` hours before the current calendar hour. -/
def trendBucket (alerts : List AlertEvent) (now i : Nat) : TrendPoint :=
  { time := hourFloor now - 60 * i
    alerts := bucketCount alerts (hourFloor now - 60 * i) (hourFloor now - 60 * i + 60)
    count := bucketCount alerts (hourFloor now - 60 * i) (hourFloor now - 60 * i + 60) }

/-- `createHourlyTrend(alerts, hours)` of `src/unnamed/part_000` lines 12–37:
the loop runs `i` from `hours - 1` down to `0`, pushing the oldest bucket
first. -/
def createHourlyTrend (alerts : List AlertEvent) (hours : Nat) (now : Nat) : List TrendPoint :=
  ((List.range hours).reverse).map (trendBucket alerts now)

/-- Total number of events counted over all buckets of a trend. -/
def sumCounts (trend : List TrendPoint) : Nat :=
  (trend.map TrendPoint.count).sum

theorem bucketCount_nil (s e : Nat) : bucketCount [] s e = 0 := rfl

theorem bucketCount_empty_range (alerts : List AlertEvent) (s e : Nat) (h : e ≤ s) :
    bucketCount alerts s e = 0 := by
  induction alerts with
  | nil => rfl
  | cons a l ih =>
    simp only [bucketCount, List.filter_cons] at ih ⊢
    cases hts : a.timestamp with
    | none => simpa [alertInHour, hts] using ih
    | some t =>
      have : alertInHour s e a = false := by
        simp only [alertInHour, hts]
        simp only [Bool.and_eq_false_iff, decide_eq_false_iff_not, not_lt, not_le]
        omega
      simpa [this] using ih

theorem bucketCount_split (alerts : List AlertEvent) (s m e : Nat)
    (h1 : s ≤ m) (h2 : m ≤ e) :
    bucketCount alerts s m + bucketCount alerts m e = bucketCount alerts s e := by
  induction alerts with
  | nil => rfl
  | cons a l ih =>
    simp only [bucketCount, ← List.countP_eq_length_filter] at ih ⊢
    rw [List.countP_cons, List.countP_cons, List.countP_cons]
    cases hts : a.timestamp with
    | none =>
      simp only [alertInHour, hts, if_neg (by simp : ¬ (false = true))]
      omega
    | some t =>
      simp only [alertInHour, hts, Bool.and_eq_true, decide_eq_true_eq]
      split_ifs <;> omega

theorem createHourlyTrend_succ (alerts : List AlertEvent) (h now : Nat) :
    createHourlyTrend alerts (h + 1) now =
      trendBucket alerts now h :: createHourlyTrend alerts h now := by
  simp [createHourlyTrend, List.range_succ]

theorem sumCounts_cons (b : TrendPoint) (T : List TrendPoint) :
    sumCounts (b :: T) = b.count + sumCounts T := by
  simp [sumCounts]

/-- Over `hours` buckets the trend counts exactly the events of the spanned
calendar hours `[hourFloor now + 60 - 60*hours, hourFloor now + 60)`. -/
theorem sumCounts_createHourlyTrend (alerts : List AlertEvent) (now : Nat) :
    ∀ hours, 60 * hours ≤ hourFloor now →
      sumCounts (createHourlyTrend alerts hours now) =
        bucketCount alerts (hourFloor now + 60 - 60 * hours) (hourFloor now + 60) := by
  intro hours
  induction hours with
  | zero =>
    intro _
    have h0 : bucketCount alerts (hourFloor now + 60 - 60 * 0) (hourFloor now + 60) = 0 :=
      bucketCount_empty_range alerts (hourFloor now + 60 - 60 * 0) (hourFloor now + 60)
        (by omega)
    rw [h0]
    rfl
  | succ h ih =>
    intro hle
    rw [createHourlyTrend_succ, sumCounts_cons, ih (by omega)]
    have e1 : hourFloor now - 60 * h + 60 = hourFloor now + 60 - 60 * h := by omega
    have e2 : hourFloor now - 60 * h = hourFloor now + 60 - 60 * (h + 1) := by omega
    simp only [trendBucket]
    rw [e1, e2]
    exact bucketCount_split alerts (hourFloor now + 60 - 60 * (h + 1))
      (hourFloor now + 60 - 60 * h) (hourFloor now + 60) (by omega) (by omega)

theorem createHourlyTrend_six (alerts : List AlertEvent) (now : Nat) :
    createHourlyTrend alerts 6 now =
      [trendBucket alerts now 5, trendBucket alerts now 4, trendBucket alerts now 3,
       trendBucket alerts now 2, trendBucket alerts now 1, trendBucket alerts now 0] := rfl

theorem bucketCount_pair (t1 t2 s e : Nat) :
    bucketCount [tsEvent (some t1), tsEvent (some t2)] s e =
      (if s ≤ t1 ∧ t1 < e then 1 else 0) + (if s ≤ t2 ∧ t2 < e then 1 else 0) := by
  simp only [bucketCount, ← List.countP_eq_length_filter, List.countP_cons, List.countP_nil,
    alertInHour, tsEvent, Bool.and_eq_true, decide_eq_true_eq]
  split_ifs <;> omega

/-- The two-alert scenario of the trend claim: alerts 30 and 90 minutes old are
always exactly one calendar-hour bucket apart, so the six bucket counts are
either `[0,0,0,0,1,1]` or `[0,0,0,1,1,0]`. -/
theorem trend_pair_counts (now : Nat) (hnow : 360 ≤ now) :
    (createHourlyTrend [tsEvent (some (now - 30)), tsEvent (some (now - 90))] 6 now).map
        TrendPoint.count = [0, 0, 0, 0, 1, 1]
    ∨ (createHourlyTrend [tsEvent (some (now - 30)), tsEvent (some (now - 90))] 6 now).map
        TrendPoint.count = [0, 0, 0, 1, 1, 0] := by
  rcases Nat.lt_or_ge (now % 60) 30 with h30 | h30
  · right
    rw [createHourlyTrend_six]
    simp only [List.map_cons, List.map_nil, trendBucket, bucketCount_pair, hourFloor,
      List.cons.injEq, and_true]
    refine ⟨?_, ?_, ?_, ?_, ?_, ?_⟩ <;> · split_ifs <;> omega
  · left
    rw [createHourlyTrend_six]
    simp only [List.map_cons, List.map_nil, trendBucket, bucketCount_pair, hourFloor,
      List.cons.injEq, and_true]
    refine ⟨?_, ?_, ?_, ?_, ?_, ?_⟩ <;> · split_ifs <;> omega

/-- C2 (amended): `createHourlyTrend` with H = 6 produces 6 ordered
oldest-first buckets, but they are aligned to calendar hours: they cover
`[hourFloor now − 5h, hourFloor now + 1h)` — the six calendar hours ending
with the hour containing `now` — not the sliding window `[now − 6h, now)`.
Each bucket's count equals the number of events whose timestamp falls in
`[bucketStart, bucketStart + 1h)`, events outside the spanned calendar hours
are excluded from every bucket, and for two alerts at `now − 30m` and
`now − 90m` the 6 buckets sum to 2 with exactly 2 non-empty and 4 empty
buckets. -/
theorem createHourlyTrend_calendar_buckets (alerts : List AlertEvent) (now : Nat)
    (hnow : 360 ≤ now) :
    (createHourlyTrend alerts 6 now).length = 6
    ∧ (createHourlyTrend alerts 6 now).map TrendPoint.time =
        [hourFloor now - 300, hourFloor now - 240, hourFloor now - 180,
         hourFloor now - 120, hourFloor now - 60, hourFloor now]
    ∧ hourFloor now ≤ now ∧ now < hourFloor now + 60
    ∧ (createHourlyTrend alerts 6 now).map TrendPoint.count =
        [bucketCount alerts (hourFloor now - 300) (hourFloor now - 240),
         bucketCount alerts (hourFloor now - 240) (hourFloor now - 180),
         bucketCount alerts (hourFloor now - 180) (hourFloor now - 120),
         bucketCount alerts (hourFloor now - 120) (hourFloor now - 60),
         bucketCount alerts (hourFloor now - 60) (hourFloor now),
         bucketCount alerts (hourFloor now) (hourFloor now + 60)]
    ∧ sumCounts (createHourlyTrend alerts 6 now) =
        bucketCount alerts (hourFloor now - 300) (hourFloor now + 60)
    ∧ sumCounts (createHourlyTrend
        [tsEvent (some (now - 30)), tsEvent (some (now - 90))] 6 now) = 2
    ∧ ((createHourlyTrend [tsEvent (some (now - 30)), tsEvent (some (now - 90))] 6 now).map
        TrendPoint.count).countP (fun c => decide (0 < c)) = 2
    ∧ ((createHourlyTrend [tsEvent (some (now - 30)), tsEvent (some (now - 90))] 6 now).map
        TrendPoint.count).countP (fun c => decide (c = 0)) = 4 := by
  have hH : 360 ≤ hourFloor now := by simp only [hourFloor]; omega
  refine ⟨rfl, ?_, ?_, ?_, ?_, ?_, ?_, ?_, ?_⟩
  · rw [createHourlyTrend_six]
    simp only [List.map_cons, List.map_nil, trendBucket]
    norm_num
  · simp only [hourFloor]; omega
  · simp only [hourFloor]; omega
  · rw [createHourlyTrend_six]
    simp only [List.map_cons, List.map_nil, trendBucket]
    have e5 : hourFloor now - 60 * 5 = hourFloor now - 300 := by omega
    have e5' : hourFloor now - 60 * 5 + 60 = hourFloor now - 240 := by omega
    have e4 : hourFloor now - 60 * 4 = hourFloor now - 240 := by omega
    have e4' : hourFloor now - 60 * 4 + 60 = hourFloor now - 180 := by omega
    have e3 : hourFloor now - 60 * 3 = hourFloor now - 180 := by omega
    have e3' : hourFloor now - 60 * 3 + 60 = hourFloor now - 120 := by omega
    have e2 : hourFloor now - 60 * 2 = hourFloor now - 120 := by omega
    have e2' : hourFloor now - 60 * 2 + 60 = hourFloor now - 60 := by omega
    have e1 : hourFloor now - 60 * 1 = hourFloor now - 60 := by omega
    have e1' : hourFloor now - 60 * 1 + 60 = hourFloor now := by omega
    have e0 : hourFloor now - 60 * 0 = hourFloor now := by omega
    rw [e5, e5', e4, e4', e3, e3', e2, e2', e1, e1', e0]
  · have := sumCounts_createHourlyTrend alerts now 6 (by omega)
    rw [this]
    have : hourFloor now + 60 - 60 * 6 = hourFloor now - 300 := by omega
    rw [this]
  · rcases trend_pair_counts now hnow with k | k <;> simp [sumCounts, k]
  · rcases trend_pair_counts now hnow with k | k <;> rw [k] <;> decide
  · rcases trend_pair_counts now hnow with k | k <;> rw [k] <;> decide

theorem createHourlyTrend_calendar_buckets_witness :
    360 ≤ 400 ∧ (createHourlyTrend [] 6 400).length = 6 ∧
      sumCounts (createHourlyTrend [tsEvent (some 370), tsEvent (some 310)] 6 400) = 2 :=
  ⟨by decide, (createHourlyTrend_calendar_buckets [] 400 (by decide)).1,
    (createHourlyTrend_calendar_buckets [] 400 (by decide)).2.2.2.2.2.2.1⟩

/-- C2 fails as stated: at `now = 390` (06:30) the buckets span the calendar
hours `[60, 420)`, so an event at `t = 400` — outside the claimed trailing
window `[30, 390)` — is counted, while an event at `t = 45` — inside the
claimed trailing window — is counted in no bucket. -/
theorem createHourlyTrend_window_cex :
    sumCounts (createHourlyTrend [tsEvent (some 400)] 6 390) = 1
    ∧ ¬ (400 < 390)
    ∧ sumCounts (createHourlyTrend [tsEvent (some 45)] 6 390) = 0
    ∧ 390 - 360 ≤ 45 ∧ 45 < 390 := by decide

/-- C9 (amended): an alert whose timestamp cannot be parsed is excluded from
every bucket (each NaN comparison is false), so it is dropped from the trend
rather than counted as "now". -/
theorem unparseable_timestamp_dropped (a : AlertEvent) (alerts : List AlertEvent)
    (hours now : Nat) (h : a.timestamp = none) :
    createHourlyTrend (a :: alerts) hours now = createHourlyTrend alerts hours now := by
  have hb : trendBucket (a :: alerts) now = trendBucket alerts now := by
    funext i
    simp [trendBucket, bucketCount, List.filter_cons, alertInHour, h]
  rw [createHourlyTrend, createHourlyTrend, hb]

theorem unparseable_timestamp_dropped_witness :
    createHourlyTrend [tsEvent none] 6 390 = createHourlyTrend [] 6 390 :=
  unparseable_timestamp_dropped (tsEvent none) [] 6 390 rfl

/-- C9 fails as stated: an alert with an unparseable timestamp contributes to
no bucket at all — in particular not to the current bucket — so the claim
that it is treated as "now" is false. -/
theorem unparseable_timestamp_cex :
    (createHourlyTrend [tsEvent none] 6 390).map TrendPoint.count = [0, 0, 0, 0, 0, 0]
    ∧ sumCounts (createHourlyTrend [tsEvent none] 6 390) = 0 := by decide

/-- `detectionData.detections?.objects?.filter(obj => obj === 'person').length`:
`none` when `detections` or `objects` is absent. -/
def personObjectCount (d : AlertEvent) : Option Nat :=
  (d.detections.bind Detections.objects).map
    (fun objs => (objs.filter (fun o => o == "person")).length)

/-- Person-count extraction of the count-fallback `updateDetection` variant
(`src/unnamed/part_000` lines 436–439):
`person_count || new_person_count || detections?.objects?.filter(...).length || 1`. -/
def extractPersonCount (d : AlertEvent) : Nat :=
  jsOrNat d.person_count (jsOrNat d.new_person_count (jsOrNat (personObjectCount d) 1))

/-- The claim's literal precedence, written from the spec's words: use
`person_count` whenever the field is present, otherwise `new_person_count`
whenever present, otherwise the number of `"person"` entries whenever the
object list is present, otherwise the default 1.  Used to compare the claimed
behaviour against `extractPersonCount`. -/
def specPersonCount (d : AlertEvent) : Nat :=
  match d.person_count with
  | some n => n
  | none =>
    match d.new_person_count with
    | some n => n
    | none =>
      match d.detections.bind Detections.objects with
      | some objs => (objs.filter (fun o => o == "person")).length
      | none => 1

/-- A current-detection snapshot as built by `updateDetection`: `id` and
`timestamp` are `Date.now()` at creation, and the fixed 10-unit dwell of
`setTimeout(..., 10000)` is recorded as `expiresAt`. -/
structure Snapshot where
  id : Nat
  timestamp : Nat
  expiresAt : Nat
  personCount : Nat
  newPersonCount : Nat
  objectTypes : List String
  boxes : List BBox
  severity : String
  isActive : Bool
deriving DecidableEq, Repr

/-- The state held by the `DetectionProvider`. -/
structure DetState where
  currentDetection : Option Snapshot
  detectionHistory : List Snapshot
  detectionCount : Nat
deriving DecidableEq, Repr

def initDetState : DetState :=
  { currentDetection := none, detectionHistory := [], detectionCount := 0 }

/-- `updateDetection` of the new-arrivals variant of `DetectionProvider`
(`src/unnamed/part_000` lines 521–565), called with event `d` at time `t`
(`Date.now()`): `activePersonCount = person_count || 0`,
`newArrivals = new_person_count || 0`, and the running counter increments by
`newArrivals` only. -/
def updateDetectionNA (s : DetState) (d : AlertEvent) (t : Nat) : DetState :=
  let newArrivals := jsOrNat d.new_person_count 0
  let newDetection : Snapshot :=
    { id := t, timestamp := t, expiresAt := t + 10,
      personCount := jsOrNat d.person_count 0,
      newPersonCount := newArrivals,
      objectTypes := (d.detections.bind Detections.objects).getD ["person"],
      boxes := (d.detections.bind Detections.boxes).getD [],
      severity := jsOrStr d.severity "medium",
      isActive := true }
  { currentDetection := some newDetection,
    detectionHistory := newDetection :: s.detectionHistory.take 49,
    detectionCount := s.detectionCount + newArrivals }

/-- An aggregator event: an `updateDetection` call at time `t`, or the firing
of the expiry timer scheduled by the call that created snapshot `id`. -/
inductive DetEvent where
  | arrive (d : AlertEvent) (t : Nat)
  | fire (id : Nat)
deriving DecidableEq, Repr

/-- One aggregator step.  The timer callback is
`setCurrentDetection(prev => prev?.id === newDetection.id ? null : prev)`:
it clears the current snapshot only when the ids match. -/
def detStep (s : DetState) : DetEvent → DetState
  | .arrive d t => updateDetectionNA s d t
  | .fire j =>
    match s.currentDetection with
    | some snap => if snap.id = j then { s with currentDetection := none } else s
    | none => s

/-- An arbitrary interleaving of `updateDetection` calls and timer firings. -/
def detRun (s : DetState) (evs : List DetEvent) : DetState := evs.foldl detStep s

theorem jsOrNat_zero (x : Option Nat) : jsOrNat x 0 = x.getD 0 := by
  cases x with
  | none => rfl
  | some n =>
    simp only [jsOrNat, Option.getD_some]
    split <;> omega

/-- New arrivals contributed by one aggregator event. -/
def newArrivalsOf : DetEvent → Nat
  | .arrive d _ => d.new_person_count.getD 0
  | .fire _ => 0

/-- C1 (amended): the exposed running total `detectionCount` increments per
event by exactly the event's new-arrivals count (`new_person_count`, taken as
0 when the field is absent or 0); it never increments by the active/current
person count (`person_count` has no influence on the increment) and no default
of 1 is applied; over any interleaving of arrivals and timer firings the total
increments by exactly the sum of the events' new-arrivals counts. -/
theorem detectionCount_newArrivals_only :
    (∀ (s : DetState) (d : AlertEvent) (t : Nat),
      (updateDetectionNA s d t).detectionCount =
        s.detectionCount + d.new_person_count.getD 0)
    ∧ (∀ (s : DetState) (d : AlertEvent) (t : Nat) (p : Option Nat),
      (updateDetectionNA s { d with person_count := p } t).detectionCount =
        (updateDetectionNA s d t).detectionCount)
    ∧ (∀ (s : DetState) (evs : List DetEvent),
      (detRun s evs).detectionCount =
        s.detectionCount + (evs.map newArrivalsOf).sum) := by
  refine ⟨?_, ?_, ?_⟩
  · intro s d t
    simp [updateDetectionNA, jsOrNat_zero]
  · intro s d t p
    simp [updateDetectionNA]
  · intro s evs
    induction evs generalizing s with
    | nil => simp [detRun]
    | cons e rest ih =>
      have hstep : ∀ s', (detStep s' e).detectionCount =
          s'.detectionCount + newArrivalsOf e := by
        intro s'
        cases e with
        | arrive d t => simp [detStep, updateDetectionNA, newArrivalsOf, jsOrNat_zero]
        | fire j =>
          cases hc : s'.currentDetection with
          | none => simp [detStep, hc, newArrivalsOf]
          | some snap =>
            simp only [detStep, hc, newArrivalsOf]
            split <;> simp
      have : detRun s (e :: rest) = detRun (detStep s e) rest := rfl
      rw [this, ih (detStep s e), hstep s]
      simp [List.map_cons, List.sum_cons]
      omega

/-- C1 fails as stated: for an event with no count field at all but a clear
detection (a `"person"` entry in the object list), the new-arrivals variant of
`updateDetection` increments `detectionCount` by 0, not by the claimed
default of 1. -/
theorem detectionCount_default_one_cex :
    ((tsEvent none).person_count = none ∧ (tsEvent none).new_person_count = none)
    ∧ (updateDetectionNA initDetState
        { tsEvent none with
          detections := some { objects := some ["person"], boxes := none, zone := none } }
        0).detectionCount = 0
    ∧ (updateDetectionNA initDetState
        { tsEvent none with
          detections := some { objects := some ["person"], boxes := none, zone := none } }
        0).detectionCount ≠ initDetState.detectionCount + 1 := by decide

/-- C3: a snapshot's own expiry timer (scheduled for `createdAt + 10`) clears
the current snapshot only when the snapshot it was created for is still
current (same id); for every interleaving of `updateDetection` calls and timer
firings, a firing for a different id leaves the current (newer) snapshot in
place, and every snapshot is created with `expiresAt = createdAt + 10`. -/
theorem snapshot_timer_identity_guard :
    (∀ (evs : List DetEvent) (s : DetState) (snap : Snapshot) (j : Nat),
      (detRun s evs).currentDetection = some snap → snap.id ≠ j →
      (detRun s (evs ++ [DetEvent.fire j])).currentDetection = some snap)
    ∧ (∀ (s : DetState) (snap : Snapshot),
      s.currentDetection = some snap →
      (detStep s (DetEvent.fire snap.id)).currentDetection = none)
    ∧ (∀ (s : DetState) (d : AlertEvent) (t : Nat) (snap : Snapshot),
      (detStep s (DetEvent.arrive d t)).currentDetection = some snap →
      snap.timestamp = t ∧ snap.expiresAt = t + 10) := by
  refine ⟨?_, ?_, ?_⟩
  · intro evs s snap j hcur hne
    have happ : detRun s (evs ++ [DetEvent.fire j]) =
        detStep (detRun s evs) (DetEvent.fire j) := by
      simp [detRun, List.foldl_append]
    rw [happ]
    simp only [detStep, hcur]
    rw [if_neg hne]
    exact hcur
  · intro s snap hcur
    simp [detStep, hcur]
  · intro s d t snap hsnap
    simp only [detStep, updateDetectionNA, Option.some.injEq] at hsnap
    subst hsnap
    exact ⟨rfl, rfl⟩

theorem snapshot_timer_identity_guard_witness :
    (detRun initDetState
        ([DetEvent.arrive (tsEvent none) 0, DetEvent.arrive (tsEvent none) 5] ++
          [DetEvent.fire 0])).currentDetection =
      some { id := 5, timestamp := 5, expiresAt := 15, personCount := 0,
             newPersonCount := 0, objectTypes := ["person"], boxes := [],
             severity := "medium", isActive := true } :=
  snapshot_timer_identity_guard.1
    [DetEvent.arrive (tsEvent none) 0, DetEvent.arrive (tsEvent none) 5]
    initDetState _ 0 (by decide) (by decide)

/-- C4 (amended): the count-fallback `updateDetection` variant extracts the
person count by the claimed precedence, but with JavaScript truthiness at each
stage: a stage wins only when its field is present AND nonzero; a present
object list with zero `"person"` entries also falls through to the default 1. -/
theorem extractPersonCount_precedence (d : AlertEvent) :
    (∀ n, d.person_count = some n → n ≠ 0 → extractPersonCount d = n)
    ∧ (∀ n, (d.person_count = none ∨ d.person_count = some 0) →
        d.new_person_count = some n → n ≠ 0 → extractPersonCount d = n)
    ∧ (∀ objs, (d.person_count = none ∨ d.person_count = some 0) →
        (d.new_person_count = none ∨ d.new_person_count = some 0) →
        d.detections.bind Detections.objects = some objs →
        (objs.filter (fun o => o == "person")).length ≠ 0 →
        extractPersonCount d = (objs.filter (fun o => o == "person")).length)
    ∧ ((d.person_count = none ∨ d.person_count = some 0) →
        (d.new_person_count = none ∨ d.new_person_count = some 0) →
        (∀ objs, d.detections.bind Detections.objects = some objs →
          (objs.filter (fun o => o == "person")).length = 0) →
        extractPersonCount d = 1) := by
  refine ⟨?_, ?_, ?_, ?_⟩
  · intro n hpc hn
    simp [extractPersonCount, jsOrNat, hpc, hn]
  · intro n hpc hnpc hn
    rcases hpc with h0 | h0 <;>
      simp [extractPersonCount, jsOrNat, h0, hnpc, hn]
  · intro objs hpc hnpc hobjs hlen
    rcases hpc with h0 | h0 <;> rcases hnpc with h1 | h1 <;>
      simp [extractPersonCount, jsOrNat, personObjectCount, h0, h1, hobjs, hlen]
  · intro hpc hnpc hobjs
    rcases hpc with h0 | h0 <;> rcases hnpc with h1 | h1 <;>
      cases hob : d.detections.bind Detections.objects with
      | none => simp [extractPersonCount, jsOrNat, personObjectCount, h0, h1, hob]
      | some objs =>
        have := hobjs objs hob
        simp [extractPersonCount, jsOrNat, personObjectCount, h0, h1, hob, this]

theorem extractPersonCount_precedence_witness :
    extractPersonCount { tsEvent none with person_count := some 2 } = 2 :=
  (extractPersonCount_precedence { tsEvent none with person_count := some 2 }).1
    2 rfl (by decide)

/-- C4 fails as stated: for an event with `person_count` present but equal to
0 and `new_person_count = 3`, the code's `||` chain skips the present
active-count field (0 is falsy) and extracts 3, while the claimed precedence
("the explicit active-count field if present") yields 0. -/
theorem extractPersonCount_zero_field_cex :
    extractPersonCount
        { tsEvent none with person_count := some 0, new_person_count := some 3 } = 3
    ∧ specPersonCount
        { tsEvent none with person_count := some 0, new_person_count := some 3 } = 0
    ∧ extractPersonCount
          { tsEvent none with person_count := some 0, new_person_count := some 3 } ≠
        specPersonCount
          { tsEvent none with person_count := some 0, new_person_count := some 3 } := by
  decide

/-- Severity level of a transient toast notification. -/
inductive ToastKind where
  | error
  | warning
  | info
  | success
deriving DecidableEq, Repr

/-- A transient toast notification (message, severity, duration in ms). -/
structure Toast where
  kind : ToastKind
  message : String
  duration : Nat
deriving DecidableEq, Repr

def videoUnavailableMsg : String :=
  "Video stream is currently unavailable. The application will continue to work with other features."

def statsLoadErrorMsg : String := "Unable to load analytics data. Using sample data."

def alertsLoadErrorMsg : String := "Unable to load alerts data. Using sample data."

def detectionActiveMsg : String := "Person detection is active and monitoring the stream!"

def detectionNotRunningMsg : String := "Person detection is not running. Alerts may not be real-time."

def detectionCheckFailedMsg : String := "Unable to check detection status."

def streamConnectedMsg : String := "Video stream connected successfully!"

/-- Payload of the stream descriptor query `getStreamInfo`. -/
structure StreamData where
  url : Option String
  hls : Option String
  status : Option String
  error : Option String
deriving DecidableEq, Repr

/-- Payload of the summary statistics query `getStats`. -/
structure StatsData where
  total : Option Nat
  critical : Option Nat
  high : Option Nat
  blackout : Option Nat
  attack : Option Nat
  danger : Option Nat
  trend : Option (List TrendPoint)
deriving DecidableEq, Repr

/-- The aggregate statistics shown by the dashboard. -/
structure Stats where
  total : Nat
  critical : Nat
  high : Nat
  blackout : Nat
deriving DecidableEq, Repr

/-- The dashboard state assembled by `Dashboard.jsx`. -/
structure DashState where
  streamUrl : String
  stats : Stats
  alerts : List AlertEvent
  trend : List TrendPoint
  detectionRunning : Bool
  toasts : List Toast
deriving DecidableEq, Repr

/-- The safe default substituted when the stream descriptor query fails:
`{ url: '', status: 'unavailable' }`. -/
def failedStreamData : StreamData :=
  { url := some "", hls := none, status := some "unavailable", error := none }

/-- The safe default substituted when the summary statistics query fails:
`{ total: 0, critical: 0, high: 0, blackout: 0, trend: [] }`. -/
def failedStatsData : StatsData :=
  { total := some 0, critical := some 0, high := some 0, blackout := some 0,
    attack := none, danger := none, trend := some [] }

/-- The three hardcoded sample alerts of `Dashboard.jsx` lines 97–141,
substituted whenever the alert history is empty; timestamps are 5, 15 and 30
minutes before `now`. -/
def sampleAlerts (now : Nat) : List AlertEvent :=
  [{ id := 1, timestamp := some (now - 5),
     title := some "Motion Detected - Restricted Area",
     reason := some "Unauthorized personnel detected in secure zone",
     severity := some "critical", location := some "Warehouse Section A",
     details := some "Multiple individuals detected entering restricted warehouse area at 02:45 AM. Security protocols activated.",
     person_count := none, new_person_count := none,
     detections := some { objects := some ["person", "person"], boxes := none,
                          zone := some "restricted_area_1" } },
   { id := 2, timestamp := some (now - 15),
     title := some "Vehicle Speeding Alert",
     reason := some "Vehicle exceeding speed limit",
     severity := some "high", location := some "Main Gate Access Road",
     details := some "Vehicle traveling at 55 mph in 25 mph zone. License plate captured.",
     person_count := none, new_person_count := none,
     detections := some { objects := none, boxes := none, zone := none } },
   { id := 3, timestamp := some (now - 30),
     title := some "Perimeter Breach",
     reason := some "Fence line security compromised",
     severity := some "medium", location := some "East Perimeter - Section 7",
     details := some "Possible fence damage detected. Requires inspection.",
     person_count := none, new_person_count := none, detections := none }]

/-- The bootstrap effect of `Dashboard.jsx` lines 21–149, as a function of the
four independently-failing query results (`Except.error` models a rejected
promise).  Each failure is caught in its own try/catch, substitutes a safe
default, and pushes one toast; toasts accumulate in program order. -/
def bootstrap (now : Nat) (streamRes : Except Unit StreamData)
    (statsRes : Except Unit StatsData) (alertsRes : Except Unit (List AlertEvent))
    (statusRes : Except Unit Bool) : DashState :=
  let sd : StreamData × List Toast :=
    match streamRes with
    | .ok s => (s, [])
    | .error _ => (failedStreamData, [⟨.warning, videoUnavailableMsg, 6000⟩])
  let st : StatsData × List Toast :=
    match statsRes with
    | .ok s => (s, [])
    | .error _ => (failedStatsData, [⟨.error, statsLoadErrorMsg, 4000⟩])
  let al : List AlertEvent × List Toast :=
    match alertsRes with
    | .ok l => (l, [])
    | .error _ => ([], [⟨.error, alertsLoadErrorMsg, 4000⟩])
  let ds : Bool × List Toast :=
    match statusRes with
    | .ok b =>
      (b, [if b then (⟨.success, detectionActiveMsg, 3000⟩ : Toast)
           else ⟨.warning, detectionNotRunningMsg, 5000⟩])
    | .error _ => (false, [⟨.warning, detectionCheckFailedMsg, 4000⟩])
  let urlOrHls := jsOrStr sd.1.url (jsOrStr sd.1.hls "")
  let streamUrl := if sd.1.status = some "active" ∧ urlOrHls ≠ "" then urlOrHls else ""
  let streamToasts : List Toast :=
    if sd.1.status = some "active" ∧ urlOrHls ≠ "" then [⟨.info, streamConnectedMsg, 3000⟩]
    else []
  let stats : Stats :=
    { total := st.1.total.getD 42,
      critical :=
        match st.1.critical with
        | some n => n
        | none => st.1.attack.getD 3,
      high :=
        match st.1.high with
        | some n => n
        | none => st.1.danger.getD 8,
      blackout := st.1.blackout.getD 1 }
  let finalAlerts := if 0 < al.1.length then al.1 else sampleAlerts now
  { streamUrl := streamUrl,
    stats := stats,
    alerts := finalAlerts,
    trend := st.1.trend.getD [],
    detectionRunning := ds.1,
    toasts := sd.2 ++ st.2 ++ al.2 ++ ds.2 ++ streamToasts }

/-- Number of toasts carrying a given message. -/
def countToasts (msg : String) (toasts : List Toast) : Nat :=
  (toasts.filter (fun t => t.message == msg)).length

/-- One inbound push-channel frame: a keepalive, a well-formed alert, or a
frame whose JSON fails to parse. -/
inductive Frame where
  | keepalive
  | alert (e : AlertEvent)
  | malformed
deriving DecidableEq, Repr

/-- What `subscribeAlerts` does with a frame. -/
inductive FrameAction where
  | forwarded (e : AlertEvent)
  | discarded
  | parseError
deriving DecidableEq, Repr

/-- Frame handling of `subscribeAlerts` (`src/unnamed/part_004` lines 50–65):
`{type:'keepalive'}` frames return early and never reach `onMessage`;
well-formed frames are forwarded; parse failures invoke `onError`. -/
def deliverFrame : Frame → FrameAction
  | .keepalive => .discarded
  | .alert e => .forwarded e
  | .malformed => .parseError

/-- JavaScript template interpolation of a possibly-undefined string. -/
def jsTemplate (x : Option String) : String :=
  match x with
  | some s => s
  | none => "undefined"

/-- The `onMessage` live-alert handler of `Dashboard.jsx` lines 154–177:
prepend-then-truncate the history to 50, bump the aggregate counters, show
one severity-mapped toast.  (The handler also forwards the event to
`updateDetection`, modelled separately by `detStep`.) -/
def applyLiveAlert (s : DashState) (msg : AlertEvent) : DashState :=
  { s with
    alerts := (msg :: s.alerts).take 50,
    stats :=
      { total := s.stats.total + 1,
        critical := s.stats.critical + (if msg.severity = some "critical" then 1 else 0),
        high := s.stats.high + (if msg.severity = some "high" then 1 else 0),
        blackout := s.stats.blackout },
    toasts := s.toasts ++
      [if msg.severity = some "critical" then
        (⟨.error, "🚨 " ++ jsTemplate msg.title, 5000⟩ : Toast)
       else if msg.severity = some "high" then
        ⟨.warning, "⚠️ " ++ jsTemplate msg.title, 4000⟩
       else ⟨.info, "🔶 " ++ jsTemplate msg.title, 3000⟩] }

/-- Effect of one inbound frame on the dashboard state: only forwarded frames
reach `onMessage`; a parse error surfaces as one warning toast. -/
def dashFrameStep (s : DashState) (f : Frame) : DashState :=
  match deliverFrame f with
  | .forwarded e => applyLiveAlert s e
  | .discarded => s
  | .parseError =>
    { s with toasts := s.toasts ++
        [⟨.warning,
          "Failed to parse real-time alert data" ++ " Data will refresh periodically instead.",
          5000⟩] }

/-- A sequence of live alert arrivals applied to the dashboard state. -/
def liveRun (s : DashState) (msgs : List AlertEvent) : DashState :=
  msgs.foldl applyLiveAlert s

/-- C5 (amended): when only the stream descriptor query fails, the summary
query returns `{total:5, critical:1, high:0, blackout:0}` and the alert
history query returns `[]`, bootstrap ends with stats `{5,1,0,0}`, exactly one
video-unavailability warning, zero alert-related warnings, and the stream URL
cleared — but the alerts list is the three built-in sample alerts (the empty
history triggers the sample-data fallback), not the empty list; the stream
failure is isolated: stats and alerts are identical to what any successful
stream response would have produced. -/
theorem bootstrap_isolated_stream_failure (now : Nat) (statusRes : Except Unit Bool)
    (tr : Option (List TrendPoint)) :
    (bootstrap now (Except.error ())
        (Except.ok { total := some 5, critical := some 1, high := some 0,
                     blackout := some 0, attack := none, danger := none, trend := tr })
        (Except.ok []) statusRes).stats = ⟨5, 1, 0, 0⟩
    ∧ (bootstrap now (Except.error ())
        (Except.ok { total := some 5, critical := some 1, high := some 0,
                     blackout := some 0, attack := none, danger := none, trend := tr })
        (Except.ok []) statusRes).alerts = sampleAlerts now
    ∧ (bootstrap now (Except.error ())
        (Except.ok { total := some 5, critical := some 1, high := some 0,
                     blackout := some 0, attack := none, danger := none, trend := tr })
        (Except.ok []) statusRes).streamUrl = ""
    ∧ countToasts videoUnavailableMsg
        (bootstrap now (Except.error ())
          (Except.ok { total := some 5, critical := some 1, high := some 0,
                       blackout := some 0, attack := none, danger := none, trend := tr })
          (Except.ok []) statusRes).toasts = 1
    ∧ countToasts alertsLoadErrorMsg
        (bootstrap now (Except.error ())
          (Except.ok { total := some 5, critical := some 1, high := some 0,
                       blackout := some 0, attack := none, danger := none, trend := tr })
          (Except.ok []) statusRes).toasts = 0
    ∧ countToasts statsLoadErrorMsg
        (bootstrap now (Except.error ())
          (Except.ok { total := some 5, critical := some 1, high := some 0,
                       blackout := some 0, attack := none, danger := none, trend := tr })
          (Except.ok []) statusRes).toasts = 0
    ∧ (∀ sd : StreamData,
        (bootstrap now (Except.ok sd)
          (Except.ok { total := some 5, critical := some 1, high := some 0,
                       blackout := some 0, attack := none, danger := none, trend := tr })
          (Except.ok []) statusRes).stats =
          (bootstrap now (Except.error ())
            (Except.ok { total := some 5, critical := some 1, high := some 0,
                         blackout := some 0, attack := none, danger := none, trend := tr })
            (Except.ok []) statusRes).stats
        ∧ (bootstrap now (Except.ok sd)
            (Except.ok { total := some 5, critical := some 1, high := some 0,
                         blackout := some 0, attack := none, danger := none, trend := tr })
            (Except.ok []) statusRes).alerts =
          (bootstrap now (Except.error ())
            (Except.ok { total := some 5, critical := some 1, high := some 0,
                         blackout := some 0, attack := none, danger := none, trend := tr })
            (Except.ok []) statusRes).alerts) := by
  rcases statusRes with u | b
  · exact ⟨rfl, rfl, rfl, rfl, rfl, rfl, fun sd => ⟨rfl, rfl⟩⟩
  · cases b <;> exact ⟨rfl, rfl, rfl, rfl, rfl, rfl, fun sd => ⟨rfl, rfl⟩⟩

/-- C5 fails as stated: in the claimed scenario the alerts list is not empty —
the empty history response triggers the sample-data fallback, leaving the
three hardcoded sample alerts. -/
theorem bootstrap_sample_alerts_cex :
    (bootstrap 1000 (Except.error ())
        (Except.ok { total := some 5, critical := some 1, high := some 0,
                     blackout := some 0, attack := none, danger := none, trend := some [] })
        (Except.ok []) (Except.ok true)).alerts ≠ []
    ∧ (bootstrap 1000 (Except.error ())
        (Except.ok { total := some 5, critical := some 1, high := some 0,
                     blackout := some 0, attack := none, danger := none, trend := some [] })
        (Except.ok []) (Except.ok true)).alerts.length = 3 := by decide

/-- C6: a keepalive frame is discarded inside `subscribeAlerts` before any
downstream consumer runs, so it leaves the entire dashboard state — in
particular `stats.total` and the alert history — unchanged, while every
well-formed non-keepalive frame is forwarded as an `AlertEvent` to the live
handler. -/
theorem keepalive_no_effect :
    (∀ s : DashState, dashFrameStep s Frame.keepalive = s)
    ∧ (∀ s : DashState,
        (dashFrameStep s Frame.keepalive).stats.total = s.stats.total
        ∧ (dashFrameStep s Frame.keepalive).alerts = s.alerts)
    ∧ (∀ e : AlertEvent, deliverFrame (Frame.alert e) = FrameAction.forwarded e)
    ∧ (∀ (s : DashState) (e : AlertEvent),
        dashFrameStep s (Frame.alert e) = applyLiveAlert s e) :=
  ⟨fun _ => rfl, fun _ => ⟨rfl, rfl⟩, fun _ => rfl, fun _ _ => rfl⟩

/-- C7: the history is prepend-then-truncate to 50: after bootstrap (whenever
the history response respects the requested bound) and after any sequence of
live arrivals the list has length at most 50, each new event becomes the
head, and when the bound is already full the oldest (last) entry is
evicted. -/
theorem alert_history_bound :
    (∀ (s : DashState) (msgs : List AlertEvent), s.alerts.length ≤ 50 →
      (liveRun s msgs).alerts.length ≤ 50)
    ∧ (∀ (s : DashState) (msg : AlertEvent),
        (applyLiveAlert s msg).alerts.head? = some msg
        ∧ (applyLiveAlert s msg).alerts.length ≤ 50)
    ∧ (∀ (s : DashState) (msg : AlertEvent), s.alerts.length = 50 →
        (applyLiveAlert s msg).alerts = msg :: s.alerts.dropLast)
    ∧ (∀ (now : Nat) (q1 : Except Unit StreamData) (q2 : Except Unit StatsData)
        (q3 : Except Unit (List AlertEvent)) (q4 : Except Unit Bool),
        (∀ l, q3 = Except.ok l → l.length ≤ 50) →
        (bootstrap now q1 q2 q3 q4).alerts.length ≤ 50) := by
  have hstep : ∀ (s : DashState) (msg : AlertEvent),
      (applyLiveAlert s msg).alerts = (msg :: s.alerts).take 50 := fun _ _ => rfl
  refine ⟨?_, ?_, ?_, ?_⟩
  · intro s msgs
    induction msgs generalizing s with
    | nil => intro h; exact h
    | cons m rest ih =>
      intro _
      have : liveRun s (m :: rest) = liveRun (applyLiveAlert s m) rest := rfl
      rw [this]
      apply ih
      rw [hstep]
      simp [List.length_take]
  · intro s msg
    constructor
    · rw [hstep, show (50 : Nat) = 49 + 1 from rfl, List.take_succ_cons]
      rfl
    · rw [hstep]
      simp [List.length_take]
  · intro s msg h50
    rw [hstep, show (50 : Nat) = 49 + 1 from rfl, List.take_succ_cons,
      List.dropLast_eq_take, h50]
  · intro now q1 q2 q3 q4 hq3
    rcases q3 with u | l
    · have : (bootstrap now q1 q2 (Except.error u) q4).alerts = sampleAlerts now := by
        simp [bootstrap]
      rw [this]
      simp [sampleAlerts]
    · have hl := hq3 l rfl
      have : (bootstrap now q1 q2 (Except.ok l) q4).alerts =
          if 0 < l.length then l else sampleAlerts now := by
        simp [bootstrap]
      rw [this]
      split
      · exact hl
      · simp [sampleAlerts]

theorem alert_history_bound_witness :
    ((liveRun
        { streamUrl := "", stats := ⟨0, 0, 0, 0⟩, alerts := [], trend := [],
          detectionRunning := false, toasts := [] }
        [tsEvent (some 1), tsEvent (some 2)]).alerts.length ≤ 50)
    ∧ (bootstrap 100 (Except.error ()) (Except.error ()) (Except.ok [tsEvent (some 7)])
        (Except.error ())).alerts.length ≤ 50 :=
  ⟨alert_history_bound.1
      { streamUrl := "", stats := ⟨0, 0, 0, 0⟩, alerts := [], trend := [],
        detectionRunning := false, toasts := [] }
      [tsEvent (some 1), tsEvent (some 2)] (by decide),
   alert_history_bound.2.2.2 100 (Except.error ()) (Except.error ())
      (Except.ok [tsEvent (some 7)]) (Except.error ())
      (by intro l hl; cases hl; decide)⟩

/-- Connection status of the video player (`connectionStatus` state). -/
inductive ConnStatus where
  | disconnected
  | connecting
  | connected
  | error
  | unsupported
deriving DecidableEq, Repr

/-- State of the `VideoPlayer` component that the retry policy touches. -/
structure VPState where
  retryCount : Nat
  hasError : Bool
  isLoading : Bool
  connectionStatus : ConnStatus
  toasts : List Toast
deriving DecidableEq, Repr

def initVPState : VPState :=
  { retryCount := 0, hasError := false, isLoading := true,
    connectionStatus := .disconnected, toasts := [] }

/-- `retryConnection` of `VideoPlayer.jsx` lines 18–37: a reconnect (deferred
re-init of the playback session) is launched only while `retryCount < 3`;
otherwise only the terminal failure toast is shown.  The boolean records
whether a reconnect attempt was launched. -/
def retryConnection (s : VPState) : VPState × Bool :=
  if s.retryCount < 3 then
    ({ s with
        retryCount := s.retryCount + 1
        hasError := false
        isLoading := true
        connectionStatus := .connecting
        toasts := s.toasts ++
          [⟨.warning,
            "Attempting to reconnect to video stream (" ++ toString (s.retryCount + 1) ++
              "/3)...", 3000⟩] }, true)
  else
    ({ s with
        toasts := s.toasts ++
          [⟨.error,
            "Video stream connection failed after 3 attempts. Please check the stream source.",
            8000⟩] }, false)

/-- The `MANIFEST_PARSED` handler: a successful connection resets the retry
budget and reports connected. -/
def onManifestParsed (s : VPState) : VPState :=
  { s with isLoading := false, retryCount := 0, connectionStatus := .connected }

/-- Discriminator of a fatal HLS error (`data.type`). -/
inductive HlsErrorType where
  | network
  | media
  | other
deriving DecidableEq, Repr

/-- The fatal branch of the HLS `ERROR` handler (`VideoPlayer.jsx` lines
103–133): every fatal error sets `hasError` and moves `connectionStatus` to
`error`; network and media errors additionally attempt in-place recovery with
a warning toast, unclassified errors destroy the session with an error
toast. -/
def onFatalError (s : VPState) (k : HlsErrorType) : VPState :=
  { s with
      hasError := true
      connectionStatus := .error
      toasts := s.toasts ++
        [match k with
         | .network => ⟨.warning, "Network error detected. Attempting to recover...", 4000⟩
         | .media => ⟨.warning, "Media playback error. Attempting to recover...", 4000⟩
         | .other => ⟨.error, "Fatal stream error. Please try refreshing the page.", 6000⟩] }

/-- `n` consecutive retry requests with no intervening successful connection:
final state and number of reconnect attempts actually launched. -/
def retryN (s : VPState) : Nat → VPState × Nat
  | 0 => (s, 0)
  | n + 1 =>
    ((retryConnection (retryN s n).1).1,
     (retryN s n).2 + (if (retryConnection (retryN s n).1).2 then 1 else 0))

/-- C8: starting from a fresh retry budget, any sequence of `n` retry requests
with no intervening success launches exactly `min n 3` reconnect attempts —
never more than 3 — the budget saturates at 3, every request beyond the third
launches no reconnect, and every fatal connection error drives
`connectionStatus` to the `error` state. -/
theorem retry_budget_three (s : VPState) (h : s.retryCount = 0) :
    (∀ n, (retryN s n).2 = min n 3)
    ∧ (∀ n, (retryN s n).1.retryCount = min n 3)
    ∧ (∀ n, 3 ≤ n → (retryConnection (retryN s n).1).2 = false)
    ∧ (∀ (s' : VPState) (k : HlsErrorType),
        (onFatalError s' k).connectionStatus = ConnStatus.error) := by
  have key : ∀ n, (retryN s n).1.retryCount = min n 3 ∧ (retryN s n).2 = min n 3 := by
    intro n
    induction n with
    | zero => simp [retryN, h]
    | succ n ih =>
      obtain ⟨ih1, ih2⟩ := ih
      by_cases hn : n < 3
      · have hlt : (retryN s n).1.retryCount < 3 := by omega
        have r1 : (retryN s (n + 1)).1.retryCount = (retryN s n).1.retryCount + 1 := by
          simp [retryN, retryConnection, if_pos hlt]
        have r2 : (retryN s (n + 1)).2 = (retryN s n).2 + 1 := by
          simp [retryN, retryConnection, if_pos hlt]
        constructor <;> omega
      · have hge : ¬ (retryN s n).1.retryCount < 3 := by omega
        have r1 : (retryN s (n + 1)).1.retryCount = (retryN s n).1.retryCount := by
          simp [retryN, retryConnection, if_neg hge]
        have r2 : (retryN s (n + 1)).2 = (retryN s n).2 := by
          simp [retryN, retryConnection, if_neg hge]
        constructor <;> omega
  refine ⟨fun n => (key n).2, fun n => (key n).1, ?_, fun s' k => rfl⟩
  intro n hn
  have : ¬ (retryN s n).1.retryCount < 3 := by
    have := (key n).1
    omega
  simp [retryConnection, if_neg this]

theorem retry_budget_three_witness :
    (retryN initVPState 5).2 = min 5 3
    ∧ (retryConnection (retryN initVPState 5).1).2 = false :=
  ⟨(retry_budget_three initVPState rfl).1 5,
   (retry_budget_three initVPState rfl).2.2.1 5 (by decide)⟩
